import Mathlib

/-!
Shallow embedding of the transaction-monitoring pipeline in src/main.py
(Alchemy mined-transactions variant): SQLite-backed wallet and transaction
stores, Ethereum address validation, the websocket receive loop of
subscribe_to_mined_transactions, and the toggle_monitoring thread logic.

Python dicts delivered by the feed are modelled at the granularity the code
inspects them: the unwrapped `transaction` object is either an empty dict
(falsy, skipped by the `if transaction:` guard) or a non-empty dict whose
twelve relevant keys are each present (some value, modelled as a string)
or absent (none).  SQLite tables are modelled as lists of rows kept in
rowid order, with the INTEGER PRIMARY KEY surrogate assigned from a
monotone counter, exactly as SQLite assigns rowids to a table that only
ever receives inserts.
-/

/-- A non-empty transaction dict unwrapped from a feed message.  Each field
is the value at the corresponding key of the Python dict (`from` and `to`
are renamed, `from` being a Lean keyword); `none` means the key is absent,
in which case `transaction.get(k)` yields None and `transaction[k]` raises
KeyError. -/
structure TxObj where
  hash : Option String
  fromAddr : Option String
  toAddr : Option String
  value : Option String
  gas : Option String
  gasPrice : Option String
  nonce : Option String
  input : Option String
  type : Option String
  v : Option String
  r : Option String
  s : Option String
  deriving Repr, DecidableEq

/-- The dict literal built at lines 158-171 of main.py and passed to
add_transaction_to_db: the "hash" entry comes from a bracket access (so by
the time this value exists the key was present), the others from .get and
may be None. -/
structure TxData where
  hash : String
  fromAddr : Option String
  toAddr : Option String
  value : Option String
  gas : Option String
  gasPrice : Option String
  nonce : Option String
  input : Option String
  type : Option String
  v : Option String
  r : Option String
  s : Option String
  deriving Repr, DecidableEq

/-- One row of the transactions table (schema at lines 30-47 of main.py):
id INTEGER PRIMARY KEY plus twelve text columns and date_added. -/
structure TxRow where
  id : Nat
  hash : String
  from_address : Option String
  to_address : Option String
  value : Option String
  gas : Option String
  gasPrice : Option String
  nonce : Option String
  input : Option String
  type : Option String
  v : Option String
  r : Option String
  s : Option String
  date_added : String
  deriving Repr, DecidableEq

/-- The transactions table: rows in rowid (insertion) order, plus the next
rowid SQLite will assign.  A fresh database starts at rowid 1. -/
structure TxStore where
  nextId : Nat
  rows : List TxRow
  deriving Repr, DecidableEq

def TxStore.empty : TxStore := { nextId := 1, rows := [] }

/-- The row created by the INSERT of add_transaction_to_db: the thirteen
bound columns in order, with rowid i assigned by SQLite. -/
def insertedRow (i : Nat) (td : TxData) (now : String) : TxRow :=
  { id := i
    hash := td.hash
    from_address := td.fromAddr
    to_address := td.toAddr
    value := td.value
    gas := td.gas
    gasPrice := td.gasPrice
    nonce := td.nonce
    input := td.input
    type := td.type
    v := td.v
    r := td.r
    s := td.s
    date_added := now }

/-- add_transaction_to_db (main.py lines 82-106): a plain INSERT with no
uniqueness constraint; SQLite assigns the next rowid.  date_added is the
wall-clock string datetime.now().strftime(...), passed in as a parameter
since it is an input of the model. -/
def add_transaction_to_db (db : TxStore) (td : TxData) (now : String) : TxStore :=
  { nextId := db.nextId + 1
    rows := db.rows ++ [insertedRow db.nextId td now] }

/-- fetch_transactions (main.py lines 109-113):
SELECT * FROM transactions ORDER BY id DESC.  The SQL sorts the bag of rows
by the id column, descending. -/
def fetch_transactions (db : TxStore) : List TxRow :=
  db.rows.mergeSort (fun a b => Nat.ble b.id a.id)

/-- One row of the wallets table (main.py line 29): address TEXT UNIQUE and
added_time TEXT (the id surrogate key is never read by the code and is
omitted). -/
structure WalletRow where
  address : String
  added_time : String
  deriving Repr, DecidableEq

/-- add_wallet_to_db (main.py lines 61-65): INSERT OR IGNORE against the
UNIQUE(address) constraint — if a row with this address exists the insert
is ignored, otherwise a row is appended. -/
def add_wallet_to_db (ws : List WalletRow) (wallet_address added_time : String) : List WalletRow :=
  if ws.any (fun w => w.address = wallet_address) then ws
  else ws ++ [{ address := wallet_address, added_time := added_time }]

/-- delete_wallet_from_db (main.py lines 75-79):
DELETE FROM wallets WHERE address = ?. -/
def delete_wallet_from_db (ws : List WalletRow) (wallet_address : String) : List WalletRow :=
  ws.filter (fun w => ¬ (w.address = wallet_address))

/-- fetch_monitored_addresses (main.py lines 68-72):
SELECT address, added_time FROM wallets, no ORDER BY — table order. -/
def fetch_monitored_addresses (ws : List WalletRow) : List WalletRow := ws

/-- Hexadecimal character class [a-fA-F0-9] of the validation regex. -/
def isHexChar (c : Char) : Bool :=
  (('0' ≤ c && c ≤ '9') || ('a' ≤ c && c ≤ 'f') || ('A' ≤ c && c ≤ 'F'))

/-- The character sequences matched by the regex body 0x[a-fA-F0-9]40
with both anchors at exact string boundaries. -/
def coreMatch : List Char → Bool
  | c0 :: c1 :: rest => c0 = '0' && c1 = 'x' && rest.length = 40 && rest.all isHexChar
  | _ => false

/-- is_valid_eth_address (main.py lines 121-122):
re.match of the pattern anchored by a caret and a dollar.  Python re.match
anchors at the start, and without MULTILINE the dollar matches at the end
of the string OR just before a newline that ends the string, so the
accepted set is the core matches plus each core match with one trailing
newline character. -/
def is_valid_eth_address (address : String) : Bool :=
  coreMatch address.data ||
    (address.data.getLast? = some '\n' && coreMatch address.data.dropLast)

/-- The Add Wallet Address button handler (main.py lines 233-239): the
address is inserted, with a success message, iff the input string is truthy
(non-empty) and passes is_valid_eth_address; otherwise an error message is
shown and the store is untouched.  Returns the new wallet table and whether
the input was accepted. -/
def addWalletClick (ws : List WalletRow) (wallet_address now : String) :
    List WalletRow × Bool :=
  if wallet_address ≠ "" && is_valid_eth_address wallet_address then
    (add_wallet_to_db ws wallet_address now, true)
  else (ws, false)

/-- Outcome of one websocket.recv plus the json.loads / envelope unwrap at
lines 153-154 of main.py, at the granularity the receive loop inspects it:
- connClosed: recv raised websockets.exceptions.ConnectionClosed;
- badJson: json.loads raised (malformed JSON);
- badEnvelope: an envelope level is present but not a dict, so a chained
  .get raised AttributeError;
- txMsg none: every .get defaulted or the transaction value is an empty
  dict, so `transaction` is falsy and the message is skipped;
- txMsg (some t): `transaction` is the non-empty dict t. -/
inductive RecvResult where
  | connClosed
  | badJson
  | badEnvelope
  | txMsg (t : Option TxObj)
  deriving Repr, DecidableEq

/-- How the receive loop of subscribe_to_mined_transactions ended:
- stopped: the while condition saw stop_event set;
- closedExit: ConnectionClosed was caught by the inner handler and broke
  the loop;
- errored: an exception escaped the inner try (which catches only
  ConnectionClosed) and was caught by the outer `except Exception` at line
  177, ending the coroutine;
- drained: the finite event list of the model was exhausted (a real stream
  is unbounded; reaching this exit means every modelled message was
  processed without terminating the loop). -/
inductive LoopExit where
  | stopped
  | closedExit
  | errored
  | drained
  deriving Repr, DecidableEq

/-- Lines 158-171 of main.py: build the transaction_data dict from the
unwrapped non-empty transaction dict.  transaction["hash"] is a bracket
access and raises KeyError when the key is absent (modelled as .error);
every other key is read with .get. -/
def buildTxData (t : TxObj) : Except Unit TxData :=
  match t.hash with
  | none => .error ()
  | some h => .ok {
      hash := h
      fromAddr := t.fromAddr
      toAddr := t.toAddr
      value := t.value
      gas := t.gas
      gasPrice := t.gasPrice
      nonce := t.nonce
      input := t.input
      type := t.type
      v := t.v
      r := t.r
      s := t.s }

/-- The receive loop (main.py lines 151-175).  `stop` gives the value of
stop_event.is_set() at the k-th check of the while condition; `events`
gives the successive outcomes of `await websocket.recv()`.  Each iteration:
check stop_event; recv; on ConnectionClosed the inner handler breaks; any
other exception (json.loads failure, envelope AttributeError, KeyError on
transaction["hash"]) escapes the inner try and is caught only by the outer
handler, terminating the coroutine; a falsy transaction is skipped; a
non-empty transaction with a hash is appended to the transactions table.
Note the loop never re-reads the wallets table and applies no membership
filter of its own. -/
def runLoop (now : String) (stop : Nat → Bool) :
    Nat → List RecvResult → TxStore → LoopExit × TxStore
  | k, events, db =>
    if stop k then (.stopped, db)
    else
      match events with
      | [] => (.drained, db)
      | .connClosed :: _ => (.closedExit, db)
      | .badJson :: _ => (.errored, db)
      | .badEnvelope :: _ => (.errored, db)
      | .txMsg none :: rest => runLoop now stop (k + 1) rest db
      | .txMsg (some t) :: rest =>
        match buildTxData t with
        | .error _ => (.errored, db)
        | .ok td => runLoop now stop (k + 1) rest (add_transaction_to_db db td now)

/-- One from/to filter entry of the alchemy_minedTransactions subscription
parameters (main.py line 131). -/
inductive AddrFilter where
  | fromSide (a : String)
  | toSide (a : String)
  deriving Repr, DecidableEq

/-- The eth_subscribe request body built at lines 130-144 of main.py. -/
structure SubRequest where
  addresses : List AddrFilter
  includeRemoved : Bool
  hashesOnly : Bool
  deriving Repr, DecidableEq

def buildRequest (addrs : List String) : SubRequest :=
  { addresses := addrs.map AddrFilter.fromSide ++ addrs.map AddrFilter.toSide
    includeRemoved := false
    hashesOnly := false }

/-- Observable outcome of one call to subscribe_to_mined_transactions. -/
structure SessionResult where
  connectAttempted : Bool
  request : SubRequest
  exit : LoopExit
  db : TxStore
  deriving Repr, DecidableEq

/-- subscribe_to_mined_transactions (main.py lines 125-178).  The function
body opens the websocket first (`async with websockets.connect(...)`) and
only then, inside the connection, reads the wallets table, builds the
filter list and the request, sends it, consumes the acknowledgement, and
enters the receive loop.  There is no emptiness check on the address list
anywhere. -/
def subscribe_to_mined_transactions (ws : List WalletRow) (now : String)
    (stop : Nat → Bool) (events : List RecvResult) (db : TxStore) : SessionResult :=
  let addrs := (fetch_monitored_addresses ws).map (fun w => w.address)
  let req := buildRequest addrs
  let res := runLoop now stop 0 events db
  { connectAttempted := true, request := req, exit := res.1, db := res.2 }

/-- The Streamlit session state toggle_monitoring manipulates (main.py
lines 185-202): the spawned monitoring threads in spawn order (true =
is_alive(); the monitoring_thread handle is the last entry, None when the
list is empty), the shared stop_event, and the is_monitoring flag. -/
structure MonState where
  units : List Bool
  stopSet : Bool
  is_monitoring : Bool
  deriving Repr, DecidableEq

def MonState.init : MonState := { units := [], stopSet := false, is_monitoring := false }

/-- monitoring_thread is not None and monitoring_thread.is_alive(). -/
def lastAlive (st : MonState) : Bool := st.units.getLast?.getD false

/-- toggle_monitoring (main.py lines 185-202): when the handle is None or
the thread is dead, clear stop_event, spawn a new thread and set
is_monitoring; otherwise set stop_event and clear is_monitoring without
touching the thread. -/
def toggle_monitoring (st : MonState) : MonState :=
  if lastAlive st then
    { st with stopSet := true, is_monitoring := false }
  else
    { units := st.units ++ [true], stopSet := false, is_monitoring := true }

/-- Thread i returns (its receive loop ended, by error, break or stop);
is_alive() becomes False.  Nothing else in session state changes: in
particular is_monitoring keeps its value. -/
def unitExit (st : MonState) (i : Nat) : MonState :=
  { st with units := st.units.set i false }

/-- Events that change the monitoring session state: a click of the toggle
button, or some spawned thread finishing. -/
inductive MonEvent where
  | toggle
  | exits (i : Nat)
  deriving Repr, DecidableEq

def monStep (st : MonState) : MonEvent → MonState
  | .toggle => toggle_monitoring st
  | .exits i => unitExit st i

def runMonEvents (tr : List MonEvent) : MonState :=
  tr.foldl monStep MonState.init

/-- Number of live monitoring threads. -/
def aliveCount (st : MonState) : Nat := st.units.count true

/-- Modelled from the spec: the address format the UI is documented to
accept, the two characters 0x followed by exactly 40 hexadecimal
characters.  Written from the spec's words, to be compared with the
behaviour of is_valid_eth_address as embedded from the source. -/
def specAddressShape (s : String) : Bool :=
  s.data.take 2 = ['0', 'x'] && s.data.length = 42 && (s.data.drop 2).all isHexChar

/-- A well-formed 40-hex-digit address used as concrete test data. -/
def addrA : String := "0xaaaaaaaaaaaaaaaaaaaaaaaaaaaaaaaaaaaaaaaa"

/-- The same address with one trailing newline character. -/
def addrANl : String := "0xaaaaaaaaaaaaaaaaaaaaaaaaaaaaaaaaaaaaaaaa\n"

/-- A concrete non-empty transaction dict whose from and to addresses are
not monitored (they differ from addrA), with a hash present. -/
def txStranger : TxObj :=
  { hash := some "0xhash1"
    fromAddr := some "0xdead"
    toAddr := some "0xbeef"
    value := some "1"
    gas := none
    gasPrice := none
    nonce := none
    input := none
    type := none
    v := none
    r := none
    s := none }

/-- A concrete non-empty transaction dict that lacks the hash key. -/
def txNoHash : TxObj :=
  { hash := none
    fromAddr := some "0xdead"
    toAddr := some "0xbeef"
    value := some "1"
    gas := none
    gasPrice := none
    nonce := none
    input := none
    type := none
    v := none
    r := none
    s := none }

/-- The stop_event is never set during the modelled session. -/
def neverStop : Nat → Bool := fun _ => false

lemma coreMatch_iff (l : List Char) :
    coreMatch l = true ↔
      l.take 2 = ['0', 'x'] ∧ l.length = 42 ∧ (l.drop 2).all isHexChar = true := by
  match l with
  | [] => simp [coreMatch]
  | [a] => simp [coreMatch]
  | a :: b :: rest =>
    simp only [coreMatch, Bool.and_eq_true, decide_eq_true_eq, List.take_succ_cons,
      List.take_zero, List.drop_succ_cons, List.drop_zero, List.length_cons,
      List.cons.injEq, and_true]
    constructor
    · rintro ⟨⟨⟨h0, h1⟩, hlen⟩, hall⟩
      exact ⟨⟨h0, h1⟩, by omega, hall⟩
    · rintro ⟨⟨h0, h1⟩, hlen, hall⟩
      exact ⟨⟨⟨h0, h1⟩, by omega⟩, hall⟩

lemma specAddressShape_iff (s : String) :
    specAddressShape s = true ↔
      s.data.take 2 = ['0', 'x'] ∧ s.data.length = 42 ∧ (s.data.drop 2).all isHexChar = true := by
  simp [specAddressShape, and_assoc]

lemma coreMatch_eq_specAddressShape (s : String) :
    coreMatch s.data = specAddressShape s := by
  rw [Bool.eq_iff_iff, coreMatch_iff, specAddressShape_iff]

/-- C5 counterexample: the Python dollar anchor also matches just before a
trailing newline, so the 43-character input addrANl (a valid address plus
one newline) is accepted by the button handler even though it is not of
the form 0x followed by exactly 40 hexadecimal characters. -/
theorem c5_counterexample :
    (addWalletClick [] addrANl "t0").2 = true ∧ specAddressShape addrANl = false := by
  decide

/-- C5 (amended): addWalletClick accepts an input string, inserting the
address, if and only if the string is 0x followed by exactly 40
hexadecimal characters, or such a string followed by a single trailing
newline character (an artifact of the Python dollar anchor); every other
input is rejected and leaves the wallet store unchanged. -/
theorem c5_accepts_iff (ws : List WalletRow) (s now : String) :
    ((addWalletClick ws s now).2 = true ↔
      (specAddressShape s = true ∨
        (s.data.getLast? = some '\n' ∧ specAddressShape (String.mk s.data.dropLast) = true)))
    ∧ ((addWalletClick ws s now).2 = false → (addWalletClick ws s now).1 = ws) := by
  have hmk : (String.mk s.data.dropLast).data = s.data.dropLast := rfl
  have hvalid : is_valid_eth_address s = true ↔
      (specAddressShape s = true ∨
        (s.data.getLast? = some '\n' ∧ specAddressShape (String.mk s.data.dropLast) = true)) := by
    rw [is_valid_eth_address, Bool.or_eq_true, Bool.and_eq_true, decide_eq_true_eq]
    rw [coreMatch_eq_specAddressShape]
    constructor
    · rintro (h | ⟨h1, h2⟩)
      · exact Or.inl h
      · refine Or.inr ⟨h1, ?_⟩
        rw [← coreMatch_eq_specAddressShape, hmk]
        exact h2
    · rintro (h | ⟨h1, h2⟩)
      · exact Or.inl h
      · refine Or.inr ⟨h1, ?_⟩
        rw [← hmk]
        rw [coreMatch_eq_specAddressShape]
        exact h2
  by_cases hc : (s ≠ "" && is_valid_eth_address s) = true
  · rw [Bool.and_eq_true, decide_eq_true_eq] at hc
    have hacc : (addWalletClick ws s now).2 = true := by
      simp [addWalletClick, hc.1, hc.2]
    constructor
    · rw [hacc]
      simp only [true_iff]
      exact hvalid.mp hc.2
    · intro hfalse
      rw [hacc] at hfalse
      exact absurd hfalse (by simp)
  · have h2 : (addWalletClick ws s now) = (ws, false) := by
      unfold addWalletClick
      rw [if_neg (by simpa using hc)]
    rw [h2]
    simp only [Bool.false_eq_true, false_iff, forall_const, and_true]
    rw [Bool.and_eq_true, decide_eq_true_eq, not_and_or] at hc
    rcases hc with hc | hc
    · have hs : s = "" := by
        by_contra hne
        exact hc hne
      subst hs
      rintro (h | ⟨h1, _⟩)
      · rw [← coreMatch_eq_specAddressShape] at h
        exact absurd h (by decide)
      · exact absurd h1 (by decide)
    · intro hr
      exact hc (hvalid.mpr hr)

/-- C8: add_wallet_to_db is idempotent — inserting an address that is
already stored is ignored, so adding the same address twice (under the
UNIQUE constraint invariant that the store holds at most one row per
address) leaves exactly one row with that address. -/
theorem c8_add_idempotent (ws : List WalletRow) (a t₁ t₂ : String)
    (h : ws.countP (fun w => decide (w.address = a)) ≤ 1) :
    add_wallet_to_db (add_wallet_to_db ws a t₁) a t₂ = add_wallet_to_db ws a t₁
    ∧ (add_wallet_to_db ws a t₁).countP (fun w => decide (w.address = a)) = 1 := by
  by_cases hmem : ws.any (fun w => decide (w.address = a)) = true
  · have h1 : add_wallet_to_db ws a t₁ = ws := by
      unfold add_wallet_to_db
      rw [if_pos (by simpa using hmem)]
    have h2 : add_wallet_to_db ws a t₂ = ws := by
      unfold add_wallet_to_db
      rw [if_pos (by simpa using hmem)]
    rw [h1, h2]
    refine ⟨rfl, ?_⟩
    have hpos : 0 < ws.countP (fun w => decide (w.address = a)) := by
      rw [List.countP_pos_iff]
      rw [List.any_eq_true] at hmem
      exact hmem
    omega
  · have h1 : add_wallet_to_db ws a t₁ = ws ++ [{ address := a, added_time := t₁ }] := by
      unfold add_wallet_to_db
      rw [if_neg (by simpa using hmem)]
    have hzero : ws.countP (fun w => decide (w.address = a)) = 0 := by
      rw [List.countP_eq_zero]
      intro w hw
      simp only [decide_eq_true_eq]
      intro heq
      apply hmem
      rw [List.any_eq_true]
      exact ⟨w, hw, by simp [heq]⟩
    constructor
    · rw [h1]
      unfold add_wallet_to_db
      rw [if_pos]
      simp
    · rw [h1, List.countP_append, hzero]
      simp

/-- C9: deleting a wallet address that is not in the store is a no-op (the
DELETE matches no row), and delete_wallet_from_db is idempotent on every
store. -/
theorem c9_remove_noop (ws : List WalletRow) (a : String) :
    ((∀ w ∈ ws, w.address ≠ a) → delete_wallet_from_db ws a = ws)
    ∧ delete_wallet_from_db (delete_wallet_from_db ws a) a = delete_wallet_from_db ws a := by
  constructor
  · intro h
    unfold delete_wallet_from_db
    rw [List.filter_eq_self]
    intro w hw
    simp [h w hw]
  · unfold delete_wallet_from_db
    rw [List.filter_filter]
    simp

/-- C9 witness: removing an address from a store that does not contain it
(here a one-row store with a different address). -/
theorem c9_remove_noop_witness :
    delete_wallet_from_db [{ address := addrA, added_time := "t0" }] "0xbbbb" =
      [{ address := addrA, added_time := "t0" }] :=
  (c9_remove_noop [{ address := addrA, added_time := "t0" }] "0xbbbb").1 (by decide)

/-- C8 witness: adding addrA twice to the empty wallet store. -/
theorem c8_add_idempotent_witness :
    add_wallet_to_db (add_wallet_to_db [] addrA "t1") addrA "t2" = add_wallet_to_db [] addrA "t1"
    ∧ (add_wallet_to_db [] addrA "t1").countP (fun w => decide (w.address = addrA)) = 1 :=
  c8_add_idempotent [] addrA "t1" "t2" (by decide)

/-- C6: add_transaction_to_db deduplicates nothing — inserting the same
transaction data twice yields two new rows after the existing ones, both
carrying the delivered hash, with distinct ids. -/
theorem c6_no_dedup (db : TxStore) (td : TxData) (now₁ now₂ : String) :
    ∃ r₁ r₂ : TxRow,
      (add_transaction_to_db (add_transaction_to_db db td now₁) td now₂).rows
        = db.rows ++ [r₁, r₂]
      ∧ r₁.hash = td.hash ∧ r₂.hash = td.hash ∧ r₁.id ≠ r₂.id := by
  refine ⟨insertedRow db.nextId td now₁, insertedRow (db.nextId + 1) td now₂, ?_, rfl, rfl, ?_⟩
  · simp [add_transaction_to_db]
  · simp [insertedRow]

/-- The invariant every reachable transactions table satisfies: rowids are
strictly increasing along insertion order and below the next rowid. -/
def TxStore.WellFormed (db : TxStore) : Prop :=
  db.rows.Pairwise (fun a b => a.id < b.id) ∧ ∀ r ∈ db.rows, r.id < db.nextId

/-- C7: on a well-formed table, fetch_transactions returns exactly the
stored rows (a permutation of the table), sorted by id strictly
descending; the well-formedness invariant holds of the fresh table and is
preserved by every insert, so this covers every reachable store state. -/
theorem c7_fetch_desc (db : TxStore) (h : db.WellFormed) :
    List.Perm (fetch_transactions db) db.rows
    ∧ List.Sorted (fun a b => b.id < a.id) (fetch_transactions db)
    ∧ TxStore.empty.WellFormed
    ∧ (∀ td now, (add_transaction_to_db db td now).WellFormed) := by
  have hperm := List.mergeSort_perm db.rows (fun a b => Nat.ble b.id a.id)
  have htrans : ∀ a b c : TxRow, Nat.ble b.id a.id = true → Nat.ble c.id b.id = true →
      Nat.ble c.id a.id = true := by
    intro a b c h1 h2
    simp only [Nat.ble_eq] at *
    omega
  have htotal : ∀ a b : TxRow, (Nat.ble b.id a.id || Nat.ble a.id b.id) = true := by
    intro a b
    rw [Bool.or_eq_true]
    simp only [Nat.ble_eq]
    omega
  have hsorted := @List.sorted_mergeSort TxRow (fun a b => Nat.ble b.id a.id) htrans htotal db.rows
  have hndrows : (db.rows.map (fun r => r.id)).Nodup :=
    List.pairwise_map.mpr (h.1.imp (fun hlt => Nat.ne_of_lt hlt))
  have hndout : ((db.rows.mergeSort (fun a b => Nat.ble b.id a.id)).map (fun r => r.id)).Nodup :=
    ((hperm.map (fun r => r.id)).nodup_iff).mpr hndrows
  have hne : (db.rows.mergeSort (fun a b => Nat.ble b.id a.id)).Pairwise
      (fun a b => a.id ≠ b.id) := List.pairwise_map.mp hndout
  refine ⟨hperm, ?_, ?_, ?_⟩
  · have := hsorted.and hne
    refine this.imp ?_
    intro a b hab
    have h1 := hab.1
    simp only [Nat.ble_eq] at h1
    have h2 := hab.2
    omega
  · exact ⟨List.Pairwise.nil, by simp [TxStore.empty]⟩
  · intro td now
    constructor
    · rw [add_transaction_to_db, List.pairwise_append]
      refine ⟨h.1, List.pairwise_singleton _ _, ?_⟩
      intro a ha b hb
      rw [List.mem_singleton] at hb
      subst hb
      exact h.2 a ha
    · intro r hr
      rw [add_transaction_to_db] at hr
      simp only [List.mem_append, List.mem_singleton] at hr
      rcases hr with hr | hr
      · have := h.2 r hr
        simp only [add_transaction_to_db]
        omega
      · subst hr
        simp [add_transaction_to_db, insertedRow]

/-- C7 witness: a two-row well-formed table. -/
theorem c7_fetch_desc_witness :
    List.Perm
      (fetch_transactions
        (add_transaction_to_db (add_transaction_to_db TxStore.empty
          { hash := "h1", fromAddr := none, toAddr := none, value := none, gas := none,
            gasPrice := none, nonce := none, input := none, type := none, v := none,
            r := none, s := none } "t1")
          { hash := "h2", fromAddr := none, toAddr := none, value := none, gas := none,
            gasPrice := none, nonce := none, input := none, type := none, v := none,
            r := none, s := none } "t2"))
      (add_transaction_to_db (add_transaction_to_db TxStore.empty
          { hash := "h1", fromAddr := none, toAddr := none, value := none, gas := none,
            gasPrice := none, nonce := none, input := none, type := none, v := none,
            r := none, s := none } "t1")
          { hash := "h2", fromAddr := none, toAddr := none, value := none, gas := none,
            gasPrice := none, nonce := none, input := none, type := none, v := none,
            r := none, s := none } "t2").rows :=
  (c7_fetch_desc _ (by constructor <;> decide)).1

/-- C2 counterexample: with an empty wallet table the session still
attempts the connection — websockets.connect is entered before the address
list is ever read, and no emptiness check exists. -/
theorem c2_counterexample :
    (subscribe_to_mined_transactions [] "now" neverStop [] TxStore.empty).connectAttempted
      = true := rfl

/-- C2 (amended): starting monitoring with zero monitored addresses still
opens the feed connection and sends a subscription whose address-filter
list is empty; delivered events are then processed by the ordinary receive
loop (the store is untouched only when no event appends to it). -/
theorem c2_empty_still_connects (now : String) (stop : Nat → Bool)
    (events : List RecvResult) (db : TxStore) :
    (subscribe_to_mined_transactions [] now stop events db).connectAttempted = true
    ∧ (subscribe_to_mined_transactions [] now stop events db).request.addresses = []
    ∧ (subscribe_to_mined_transactions [] now stop events db).db
        = (runLoop now stop 0 events db).2 :=
  ⟨rfl, rfl, rfl⟩

lemma runLoop_stopped (now : String) (stop : Nat → Bool) (k : Nat)
    (events : List RecvResult) (db : TxStore) (hstop : stop k = true) :
    runLoop now stop k events db = (.stopped, db) := by
  rw [runLoop.eq_def]
  dsimp only
  simp [hstop]

lemma runLoop_nil (now : String) (stop : Nat → Bool) (k : Nat) (db : TxStore)
    (hstop : stop k = false) :
    runLoop now stop k [] db = (.drained, db) := by
  rw [runLoop.eq_def]
  dsimp only
  simp [hstop]

lemma runLoop_connClosed (now : String) (stop : Nat → Bool) (k : Nat)
    (rest : List RecvResult) (db : TxStore) (hstop : stop k = false) :
    runLoop now stop k (RecvResult.connClosed :: rest) db = (.closedExit, db) := by
  rw [runLoop.eq_def]
  dsimp only
  simp [hstop]

lemma runLoop_badJson (now : String) (stop : Nat → Bool) (k : Nat)
    (rest : List RecvResult) (db : TxStore) (hstop : stop k = false) :
    runLoop now stop k (RecvResult.badJson :: rest) db = (.errored, db) := by
  rw [runLoop.eq_def]
  dsimp only
  simp [hstop]

lemma runLoop_badEnvelope (now : String) (stop : Nat → Bool) (k : Nat)
    (rest : List RecvResult) (db : TxStore) (hstop : stop k = false) :
    runLoop now stop k (RecvResult.badEnvelope :: rest) db = (.errored, db) := by
  rw [runLoop.eq_def]
  dsimp only
  simp [hstop]

lemma runLoop_skip (now : String) (stop : Nat → Bool) (k : Nat)
    (rest : List RecvResult) (db : TxStore) (hstop : stop k = false) :
    runLoop now stop k (RecvResult.txMsg none :: rest) db = runLoop now stop (k + 1) rest db := by
  rw [runLoop.eq_def]
  dsimp only
  simp [hstop]

lemma runLoop_appendTx (now : String) (stop : Nat → Bool) (k : Nat)
    (rest : List RecvResult) (db : TxStore) (t : TxObj) (td : TxData)
    (hstop : stop k = false) (hbuild : buildTxData t = Except.ok td) :
    runLoop now stop k (RecvResult.txMsg (some t) :: rest) db
      = runLoop now stop (k + 1) rest (add_transaction_to_db db td now) := by
  rw [runLoop.eq_def]
  dsimp only
  simp [hstop, hbuild]

lemma runLoop_noHash (now : String) (stop : Nat → Bool) (k : Nat)
    (rest : List RecvResult) (db : TxStore) (t : TxObj)
    (hstop : stop k = false) (hhash : t.hash = none) :
    runLoop now stop k (RecvResult.txMsg (some t) :: rest) db = (.errored, db) := by
  have hbuild : buildTxData t = Except.error () := by
    simp only [buildTxData.eq_def, hhash]
  rw [runLoop.eq_def]
  dsimp only
  simp [hstop, hbuild]

/-- A monitored wallet row holding addrA. -/
def walletA : WalletRow := { address := addrA, added_time := "t0" }

/-- The transaction_data dict the loop builds from txStranger. -/
def txStrangerData : TxData :=
  { hash := "0xhash1"
    fromAddr := some "0xdead"
    toAddr := some "0xbeef"
    value := some "1"
    gas := none
    gasPrice := none
    nonce := none
    input := none
    type := none
    v := none
    r := none
    s := none }

/-- C1 counterexample: with addrA the only monitored address, a delivered
transaction whose from and to addresses match no monitored address is
nevertheless appended to the transaction store — the receive loop performs
no membership re-check at all. -/
theorem c1_counterexample :
    (∀ w ∈ [walletA],
      txStranger.fromAddr ≠ some w.address ∧ txStranger.toAddr ≠ some w.address)
    ∧ (subscribe_to_mined_transactions [walletA] "now"
        neverStop [RecvResult.txMsg (some txStranger)] TxStore.empty).db.rows.length = 1 := by
  decide

/-- C1 (amended): for every monitored address set, a delivered non-empty
transaction whose hash key is present is appended to the transaction store
unconditionally — the loop applies no client-side to/from membership
filter (filtering is delegated entirely to the server-side subscription
built from the connect-time snapshot) — and the inserted row preserves the
delivered fields. -/
theorem c1_appends_without_membership_check (ws : List WalletRow) (now : String)
    (stop : Nat → Bool) (rest : List RecvResult) (db : TxStore) (t : TxObj) (td : TxData)
    (hbuild : buildTxData t = Except.ok td) (hstop : stop 0 = false) :
    (subscribe_to_mined_transactions ws now stop (RecvResult.txMsg (some t) :: rest) db).db
      = (runLoop now stop 1 rest (add_transaction_to_db db td now)).2
    ∧ (add_transaction_to_db db td now).rows = db.rows ++ [insertedRow db.nextId td now]
    ∧ (insertedRow db.nextId td now).hash = td.hash
    ∧ (insertedRow db.nextId td now).from_address = td.fromAddr
    ∧ (insertedRow db.nextId td now).to_address = td.toAddr := by
  refine ⟨?_, rfl, rfl, rfl, rfl⟩
  show (runLoop now stop 0 (RecvResult.txMsg (some t) :: rest) db).2 = _
  rw [runLoop_appendTx now stop 0 rest db t td hstop hbuild]

/-- C1 witness: the stranger transaction is appended with the wallet table
holding only addrA. -/
theorem c1_witness :
    (subscribe_to_mined_transactions [walletA] "now"
        neverStop (RecvResult.txMsg (some txStranger) :: []) TxStore.empty).db
      = (runLoop "now" neverStop 1 []
          (add_transaction_to_db TxStore.empty txStrangerData "now")).2 :=
  (c1_appends_without_membership_check [walletA] "now"
    neverStop [] TxStore.empty txStranger txStrangerData rfl rfl).1

lemma runLoop_txErr (now : String) (stop : Nat → Bool) (k : Nat)
    (rest : List RecvResult) (db : TxStore) (t : TxObj)
    (hstop : stop k = false) (hbuild : buildTxData t = Except.error ()) :
    runLoop now stop k (RecvResult.txMsg (some t) :: rest) db = (.errored, db) := by
  rw [runLoop.eq_def]
  dsimp only
  simp [hstop, hbuild]

lemma runLoop_append (now : String) (stop : Nat → Bool) (es₁ es₂ : List RecvResult) :
    ∀ k db, (runLoop now stop k es₁ db).1 = LoopExit.drained →
      runLoop now stop k (es₁ ++ es₂) db
        = runLoop now stop (k + es₁.length) es₂ (runLoop now stop k es₁ db).2 := by
  induction es₁ with
  | nil =>
    intro k db h
    by_cases hstopt : stop k = true
    · rw [runLoop_stopped now stop k [] db hstopt] at h
      simp at h
    · have hs : stop k = false := by
        rw [Bool.not_eq_true] at hstopt
        exact hstopt
      rw [runLoop_nil now stop k db hs]
      simp
  | cons e es ih =>
    intro k db h
    by_cases hstopt : stop k = true
    · rw [runLoop_stopped now stop k (e :: es) db hstopt] at h
      simp at h
    · have hs : stop k = false := by
        rw [Bool.not_eq_true] at hstopt
        exact hstopt
      have harith : k + (e :: es).length = (k + 1) + es.length := by
        simp only [List.length_cons]
        omega
      cases e with
      | connClosed =>
        rw [runLoop_connClosed now stop k es db hs] at h
        simp at h
      | badJson =>
        rw [runLoop_badJson now stop k es db hs] at h
        simp at h
      | badEnvelope =>
        rw [runLoop_badEnvelope now stop k es db hs] at h
        simp at h
      | txMsg t =>
        cases t with
        | none =>
          rw [runLoop_skip now stop k es db hs] at h
          calc runLoop now stop k ((RecvResult.txMsg none :: es) ++ es₂) db
              = runLoop now stop (k + 1) (es ++ es₂) db := by
                rw [List.cons_append, runLoop_skip now stop k (es ++ es₂) db hs]
            _ = runLoop now stop ((k + 1) + es.length) es₂
                  (runLoop now stop (k + 1) es db).2 := ih (k + 1) db h
            _ = runLoop now stop (k + (RecvResult.txMsg none :: es).length) es₂
                  (runLoop now stop k (RecvResult.txMsg none :: es) db).2 := by
                rw [harith, runLoop_skip now stop k es db hs]
        | some t =>
          cases hb : buildTxData t with
          | error u =>
            cases u
            rw [runLoop_txErr now stop k es db t hs hb] at h
            simp at h
          | ok td =>
            rw [runLoop_appendTx now stop k es db t td hs hb] at h
            calc runLoop now stop k ((RecvResult.txMsg (some t) :: es) ++ es₂) db
                = runLoop now stop (k + 1) (es ++ es₂) (add_transaction_to_db db td now) := by
                  rw [List.cons_append, runLoop_appendTx now stop k (es ++ es₂) db t td hs hb]
              _ = runLoop now stop ((k + 1) + es.length) es₂
                    (runLoop now stop (k + 1) es (add_transaction_to_db db td now)).2 :=
                  ih (k + 1) (add_transaction_to_db db td now) h
              _ = runLoop now stop (k + (RecvResult.txMsg (some t) :: es).length) es₂
                    (runLoop now stop k (RecvResult.txMsg (some t) :: es) db).2 := by
                  rw [harith, runLoop_appendTx now stop k es db t td hs hb]

/-- C10: after any prefix of messages the loop survives, a delivered
non-empty transaction dict that lacks the hash key makes the KeyError
escape the per-message handler (which catches only ConnectionClosed): the
whole receive loop ends in the errored state, later messages are never
processed, and the store is exactly what the prefix left — no partial row
is committed for the offending message. -/
theorem c10_missing_hash_kills_loop (now : String) (stop : Nat → Bool)
    (es₁ rest : List RecvResult) (db : TxStore) (t : TxObj)
    (hpre : (runLoop now stop 0 es₁ db).1 = LoopExit.drained)
    (hstop : stop es₁.length = false)
    (hhash : t.hash = none) :
    runLoop now stop 0 (es₁ ++ RecvResult.txMsg (some t) :: rest) db
      = (LoopExit.errored, (runLoop now stop 0 es₁ db).2) := by
  rw [runLoop_append now stop es₁ (RecvResult.txMsg (some t) :: rest) 0 db hpre]
  rw [Nat.zero_add]
  exact runLoop_noHash now stop es₁.length rest (runLoop now stop 0 es₁ db).2 t hstop hhash

/-- C10 witness: one good message, then a hashless one, then another good
one that is never reached. -/
theorem c10_missing_hash_kills_loop_witness :
    runLoop "now" neverStop 0
        ([RecvResult.txMsg (some txStranger)]
          ++ RecvResult.txMsg (some txNoHash) :: [RecvResult.txMsg (some txStranger)])
        TxStore.empty
      = (LoopExit.errored,
          (runLoop "now" neverStop 0 [RecvResult.txMsg (some txStranger)] TxStore.empty).2) :=
  c10_missing_hash_kills_loop "now" neverStop [RecvResult.txMsg (some txStranger)]
    [RecvResult.txMsg (some txStranger)] TxStore.empty txNoHash (by decide) rfl rfl

/-- C3 counterexample: a message whose envelope parses but lacks the
expected keys unwraps to an empty transaction and does NOT terminate the
receive loop — the following message is still processed and appended. -/
theorem c3_counterexample :
    (runLoop "now" neverStop 0
        [RecvResult.txMsg none, RecvResult.txMsg (some txStranger)] TxStore.empty).1
      = LoopExit.drained
    ∧ (runLoop "now" neverStop 0
        [RecvResult.txMsg none, RecvResult.txMsg (some txStranger)] TxStore.empty).2.rows.length
      = 1 := by
  decide

/-- C3 (amended): a JSON parse failure or a type error while unwrapping the
envelope ends the receive loop through the outer exception handler
(errored), and a transport ConnectionClosed is caught by the per-message
handler and ends the loop (closed); in both cases later messages are never
processed — there is no automatic reconnect.  An envelope that parses but
merely lacks the expected keys unwraps to an empty transaction and is
skipped silently, the loop continuing.  A monitoring thread ending leaves
is_monitoring unchanged, so the flag stays stale as running until the next
manual toggle. -/
theorem c3_error_termination (now : String) (stop : Nat → Bool) (k : Nat)
    (rest : List RecvResult) (db : TxStore) (st : MonState) (i : Nat)
    (hstop : stop k = false) :
    runLoop now stop k (RecvResult.badJson :: rest) db = (LoopExit.errored, db)
    ∧ runLoop now stop k (RecvResult.badEnvelope :: rest) db = (LoopExit.errored, db)
    ∧ runLoop now stop k (RecvResult.connClosed :: rest) db = (LoopExit.closedExit, db)
    ∧ runLoop now stop k (RecvResult.txMsg none :: rest) db = runLoop now stop (k + 1) rest db
    ∧ (unitExit st i).is_monitoring = st.is_monitoring :=
  ⟨runLoop_badJson now stop k rest db hstop,
   runLoop_badEnvelope now stop k rest db hstop,
   runLoop_connClosed now stop k rest db hstop,
   runLoop_skip now stop k rest db hstop,
   rfl⟩

/-- C3 witness: the terminating behaviours at a concrete state. -/
theorem c3_error_termination_witness :
    runLoop "now" neverStop 0 (RecvResult.badJson :: [RecvResult.txMsg (some txStranger)])
        TxStore.empty = (LoopExit.errored, TxStore.empty)
    ∧ (unitExit { units := [true], stopSet := false, is_monitoring := true } 0).is_monitoring
      = true :=
  ⟨(c3_error_termination "now" neverStop 0 [RecvResult.txMsg (some txStranger)] TxStore.empty
      { units := [true], stopSet := false, is_monitoring := true } 0 rfl).1,
   (c3_error_termination "now" neverStop 0 [RecvResult.txMsg (some txStranger)] TxStore.empty
      { units := [true], stopSet := false, is_monitoring := true } 0 rfl).2.2.2.2⟩

/-- C5 witness: a rejected input leaves the wallet table unchanged. -/
theorem c5_accepts_iff_witness :
    (addWalletClick [walletA] "not-an-address" "t1").1 = [walletA] :=
  (c5_accepts_iff [walletA] "not-an-address" "t1").2 (by decide)

/-- Invariant of the spawned-thread list: only the most recently spawned
thread can still be alive — the list is all-dead, or all-dead plus one
live thread at the end. -/
def OnlyLastAlive (l : List Bool) : Prop :=
  (∃ n, l = List.replicate n false) ∨ (∃ n, l = List.replicate n false ++ [true])

lemma lastAlive_replicate_false (n : Nat) :
    (List.replicate n false).getLast?.getD false = false := by
  cases n with
  | zero => rfl
  | succ m =>
    rw [List.replicate_succ', List.getLast?_concat]
    rfl

lemma onlyLastAlive_set (l : List Bool) (i : Nat) (h : OnlyLastAlive l) :
    OnlyLastAlive (l.set i false) := by
  rcases h with ⟨n, rfl⟩ | ⟨n, rfl⟩
  · exact Or.inl ⟨n, List.set_replicate_self⟩
  · rw [List.set_append]
    by_cases hi : i < (List.replicate n false).length
    · rw [if_pos hi, List.set_replicate_self]
      exact Or.inr ⟨n, rfl⟩
    · rw [if_neg hi]
      rcases Nat.eq_zero_or_eq_succ_pred (i - (List.replicate n false).length) with hz | hsucc
      · rw [hz]
        refine Or.inl ⟨n + 1, ?_⟩
        rw [List.replicate_succ']
        rfl
      · rw [hsucc]
        exact Or.inr ⟨n, rfl⟩

lemma onlyLastAlive_toggle (st : MonState) (h : OnlyLastAlive st.units) :
    OnlyLastAlive (toggle_monitoring st).units := by
  unfold toggle_monitoring
  by_cases hl : lastAlive st = true
  · rw [if_pos hl]
    exact h
  · rw [if_neg (by simp [hl])]
    rcases h with ⟨n, hn⟩ | ⟨n, hn⟩
    · exact Or.inr ⟨n, by rw [hn]⟩
    · exfalso
      apply hl
      unfold lastAlive
      rw [hn, List.getLast?_concat]
      rfl

lemma onlyLastAlive_runMonEvents (tr : List MonEvent) :
    OnlyLastAlive (runMonEvents tr).units := by
  have hgen : ∀ st : MonState, OnlyLastAlive st.units →
      OnlyLastAlive (tr.foldl monStep st).units := by
    induction tr with
    | nil => intro st h; exact h
    | cons e es ih =>
      intro st h
      rw [List.foldl_cons]
      apply ih
      cases e with
      | toggle => exact onlyLastAlive_toggle st h
      | exits i => exact onlyLastAlive_set st.units i h
  exact hgen MonState.init (Or.inl ⟨0, rfl⟩)

lemma count_true_of_onlyLastAlive (l : List Bool) (h : OnlyLastAlive l) :
    l.count true ≤ 1 := by
  rcases h with ⟨n, rfl⟩ | ⟨n, rfl⟩
  · rw [List.count_replicate]
    simp
  · rw [List.count_append, List.count_replicate]
    simp

/-- C4: along every sequence of toggle clicks and thread terminations from
the initial session state, at most one spawned monitoring thread is alive
at any point; and clicking the toggle while the current thread is alive
only sets the stop event and clears the flag — it never spawns a second
thread. -/
theorem c4_at_most_one_unit (tr : List MonEvent) (st : MonState)
    (h : lastAlive st = true) :
    aliveCount (runMonEvents tr) ≤ 1
    ∧ (toggle_monitoring st).units = st.units
    ∧ (toggle_monitoring st).stopSet = true
    ∧ (toggle_monitoring st).is_monitoring = false := by
  have htog : toggle_monitoring st = { st with stopSet := true, is_monitoring := false } := by
    unfold toggle_monitoring
    rw [if_pos h]
  refine ⟨count_true_of_onlyLastAlive _ (onlyLastAlive_runMonEvents tr), ?_, ?_, ?_⟩
  · rw [htog]
  · rw [htog]
  · rw [htog]

/-- C4 witness: a double toggle, a thread exit and a third toggle; and a
toggle on a state whose thread is alive. -/
theorem c4_at_most_one_unit_witness :
    aliveCount (runMonEvents [MonEvent.toggle, MonEvent.toggle, MonEvent.exits 0,
        MonEvent.toggle]) ≤ 1
    ∧ (toggle_monitoring { units := [true], stopSet := false, is_monitoring := true }).units
      = [true] :=
  ⟨(c4_at_most_one_unit [MonEvent.toggle, MonEvent.toggle, MonEvent.exits 0, MonEvent.toggle]
      { units := [true], stopSet := false, is_monitoring := true } rfl).1,
   (c4_at_most_one_unit [] { units := [true], stopSet := false, is_monitoring := true } rfl).2.1⟩
